import Mathlib

/-
Shallow embedding of the dinosim repository (src/dinosim/bodies.py,
spacecraft.py, comms.py, visualizations.py).

Numeric conventions: Python/numpy floating point is modelled over the real
numbers ℝ.  numpy helpers (radians, degrees, log10, linspace, arctan2,
meshgrid, elementwise max / comparison-count reductions) are embedded as the
corresponding real functions.  Python exceptions are modelled with an
`Except` monad over an explicit error type: raising `ValueError` maps to
`PyError.valueError` with the raised message, and reading an attribute that
was never assigned (the comm parameters before `set_comm_params`) maps to
`PyError.attributeError` naming the attribute.
-/

namespace DinoSim

noncomputable section

/-- numpy `np.log10`. -/
def log10 (x : ℝ) : ℝ := Real.logb 10 x

/-- numpy `np.radians`: degrees to radians. -/
def radians (x : ℝ) : ℝ := x * Real.pi / 180

/-- numpy `np.degrees`: radians to degrees. -/
def degrees (x : ℝ) : ℝ := x * 180 / Real.pi

/-- numpy `np.arctan2 y x`, the angle of the point (x, y); embedded as the
complex argument of x + y i, which is the standard atan2. -/
def arctan2 (y x : ℝ) : ℝ := Complex.arg ⟨x, y⟩

/-- numpy `np.linspace a b n` as a function of the sample index: n uniformly
spaced samples from a to b inclusive.  For n = 1 numpy returns the single
sample a. -/
def linspace (a b : ℝ) (n : ℕ) (i : ℕ) : ℝ :=
  if n = 1 then a else a + i * ((b - a) / ((n : ℝ) - 1))

/-- src/dinosim/bodies.py: class Planet (center_x, center_y, radius, name). -/
structure Planet where
  x : ℝ
  y : ℝ
  radius : ℝ
  name : String

/-- The communication parameters a DINO holds once `set_comm_params` has run
(src/dinosim/spacecraft.py).  The derived `antenna_gain_abs` attribute is
10^(antenna_gain_dB/10); it is only read by plotting code, so it is kept as a
derived function rather than a stored field. -/
structure CommParams where
  transmit_power_dBm : ℝ
  frequency_hz : ℝ
  antenna_gain_dB : ℝ

/-- Derived attribute `antenna_gain_abs = 10 ** (antenna_gain_dB / 10)`. -/
def CommParams.antenna_gain_abs (p : CommParams) : ℝ :=
  (10 : ℝ) ^ (p.antenna_gain_dB / 10)

/-- src/dinosim/spacecraft.py: class DINO.  The Python object carries a
`comms_params_set` flag and, once set, the three comm-parameter attributes;
both are modelled by the single `comms : Option CommParams` field
(none ↔ flag false and attributes absent). -/
structure DINO where
  name : String
  orbiting_body : Planet
  altitude : ℝ
  angle_global : ℝ
  pointing_angle : ℝ
  comms : Option CommParams

/-- The `comms_params_set` flag of the Python object. -/
def DINO.comms_params_set (c : DINO) : Bool := c.comms.isSome

/-- Python exceptions that the embedded code can raise. -/
inductive PyError where
  | valueError (msg : String)
  | attributeError (attr : String)
deriving DecidableEq

/-- The message of the ValueError raised on a gain/pattern query before the
comm parameters are set. -/
def commsNotSetMsg : String :=
  "Communication parameters not set. Please call set_comm_params() first."

/-- DINO.set_comm_params: stores the three parameters (and the derived
absolute gain) and raises the flag.  The Python method performs no
validation of any argument. -/
def set_comm_params (c : DINO)
    (transmit_power_dBm frequency_hz antenna_gain_dB : ℝ) : DINO :=
  { c with comms := some ⟨transmit_power_dBm, frequency_hz, antenna_gain_dB⟩ }

/-- DINO.get_absolute_pointing_angle: angle_global + pointing_angle, in
degrees or radians per the flag. -/
def get_absolute_pointing_angle (c : DINO) (degreesFlag : Bool) : ℝ :=
  if degreesFlag then c.angle_global + c.pointing_angle
  else radians (c.angle_global + c.pointing_angle)

/-- The hardcoded beamwidth constant of the radiation-pattern model:
K = beamwidth_3dB * sqrt(gain_3dB) = 65 * sqrt 3. -/
def beamwidth_K : ℝ := 65 * Real.sqrt 3

/-- The Gaussian sigma the gain model derives from the peak gain:
antenna_beamwidth = K / sqrt(antenna_gain_dB), sigma = radians(antenna_beamwidth) / 2.
This block is duplicated verbatim in get_absolute_gain and
get_absolute_radiation_pattern in the source. -/
def antenna_sigma (antenna_gain_dB : ℝ) : ℝ :=
  radians (beamwidth_K / Real.sqrt antenna_gain_dB) / 2

/-- The body of DINO.get_absolute_gain once the comm parameters are known:
if the degrees flag is false the input theta is converted with np.degrees,
then antenna_gain_dB * exp(-0.5 * (theta / sigma)^2) is returned. -/
def gain_raw (p : CommParams) (theta : ℝ) (degreesFlag : Bool) : ℝ :=
  let sigma := antenna_sigma p.antenna_gain_dB
  let theta := if degreesFlag then theta else degrees theta
  p.antenna_gain_dB * Real.exp (-0.5 * (theta / sigma) ^ 2)

/-- DINO.get_absolute_gain: raises the "not configured" ValueError when the
comm parameters are unset, otherwise returns `gain_raw`. -/
def get_absolute_gain (c : DINO) (theta : ℝ) (degreesFlag : Bool) :
    Except PyError ℝ :=
  match c.comms with
  | none => .error (.valueError commsNotSetMsg)
  | some p => .ok (gain_raw p theta degreesFlag)

/-- DINO.get_absolute_gain_dB = 10 * log10(get_absolute_gain ...). -/
def get_absolute_gain_dB (c : DINO) (theta : ℝ) (degreesFlag : Bool) :
    Except PyError ℝ :=
  (get_absolute_gain c theta degreesFlag).map fun g => 10 * log10 g

/-- The theta sample array of DINO.get_absolute_radiation_pattern:
np.linspace(-np.pi, np.pi, 360). -/
def pattern_theta : ℕ → ℝ := linspace (-Real.pi) Real.pi 360

/-- The pattern array of DINO.get_absolute_radiation_pattern:
antenna_gain_dB * exp(-0.5 * (theta / sigma)^2) over the theta samples. -/
def pattern_raw (p : CommParams) : ℕ → ℝ := fun i =>
  p.antenna_gain_dB *
    Real.exp (-0.5 * (pattern_theta i / antenna_sigma p.antenna_gain_dB) ^ 2)

/-- DINO.get_absolute_radiation_pattern: checks the comm parameters, builds
theta = linspace(-π, π, 360) and the Gaussian pattern over it, and, when the
degrees flag is false, applies np.radians to theta before returning
(theta, pattern).  Both arrays are returned as functions of the index. -/
def get_absolute_radiation_pattern (c : DINO) (degreesFlag : Bool) :
    Except PyError ((ℕ → ℝ) × (ℕ → ℝ)) :=
  match c.comms with
  | none => .error (.valueError commsNotSetMsg)
  | some p =>
    let theta := pattern_theta
    let pattern := pattern_raw p
    let theta := if degreesFlag then theta else fun i => radians (theta i)
    .ok (theta, pattern)

/-- np.max of a 360-element array given as a function of the index. -/
def arrayMax360 (f : ℕ → ℝ) : ℝ :=
  (List.range 360).foldl (fun acc i => max acc (f i)) (f 0)

/-- DINO.get_absolute_radiation_pattern_dB: the base pattern with the gain
array replaced by 10 * log10 of it. -/
def get_absolute_radiation_pattern_dB (c : DINO) (degreesFlag : Bool) :
    Except PyError ((ℕ → ℝ) × (ℕ → ℝ)) :=
  (get_absolute_radiation_pattern c degreesFlag).map fun tp =>
    (tp.1, fun i => 10 * log10 (tp.2 i))

/-- DINO.get_normalized_radiation_pattern: base pattern divided by its max. -/
def get_normalized_radiation_pattern (c : DINO) (degreesFlag : Bool) :
    Except PyError ((ℕ → ℝ) × (ℕ → ℝ)) :=
  (get_absolute_radiation_pattern c degreesFlag).map fun tp =>
    (tp.1, fun i => tp.2 i / arrayMax360 tp.2)

/-- DINO.get_normalized_radiation_pattern_dB: dB pattern minus its max. -/
def get_normalized_radiation_pattern_dB (c : DINO) (degreesFlag : Bool) :
    Except PyError ((ℕ → ℝ) × (ℕ → ℝ)) :=
  (get_absolute_radiation_pattern_dB c degreesFlag).map fun tp =>
    (tp.1, fun i => tp.2 i - arrayMax360 tp.2)

/-- The spacecraft global position computed inline in
get_power_received_field_from_spacecraft (src/dinosim/comms.py):
(body.x + (altitude + body.radius) * cos(radians(angle_global)),
 body.y + (altitude + body.radius) * sin(radians(angle_global))). -/
def global_position (c : DINO) : ℝ × ℝ :=
  (c.orbiting_body.x +
     (c.altitude + c.orbiting_body.radius) * Real.cos (radians c.angle_global),
   c.orbiting_body.y +
     (c.altitude + c.orbiting_body.radius) * Real.sin (radians c.angle_global))

/-- The per-point angle-off-boresight computed in the antenna-correction
loop of get_power_received_field_from_spacecraft: the vector from the
spacecraft to the point is rotated by
pointing_angle = -1 * get_absolute_pointing_angle(degrees=False) with the
rotation matrix [[cos, -sin], [sin, cos]], and arctan2 of the rotated vector
is taken. -/
def angle_off_boresight (c : DINO) (px py : ℝ) : ℝ :=
  let pointing_angle := -1 * get_absolute_pointing_angle c false
  let vx := px - (global_position c).1
  let vy := py - (global_position c).2
  let rotated_x := Real.cos pointing_angle * vx + -(Real.sin pointing_angle) * vy
  let rotated_y := Real.sin pointing_angle * vx + Real.cos pointing_angle * vy
  arctan2 rotated_y rotated_x

/-- src/dinosim/comms.py get_power_received_field_from_spacecraft: builds the
meshgrid over xlim × ylim (X i j = x j, Y i j = y i per numpy meshgrid), the
distance field to the spacecraft global position, the free-space path loss
20*log10(d*1000) + 20*log10(f/1e6) + 32.44 and the base received power, then
optionally adds the antenna-gain correction per point.  The grids are
embedded as total functions of the two indices (the Python code only fills
indices below num_points).  The function reads craft.frequency_hz without
checking comms_params_set, so on an unconfigured craft it raises an
AttributeError for frequency_hz (the first unset attribute it touches),
in either antenna_correction mode. -/
def get_power_received_field_from_spacecraft (xlim ylim : ℝ × ℝ) (craft : DINO)
    (num_points : ℕ) (antenna_correction : Bool) :
    Except PyError ((ℕ → ℕ → ℝ) × (ℕ → ℕ → ℝ) × (ℕ → ℕ → ℝ)) :=
  let x := linspace xlim.1 xlim.2 num_points
  let y := linspace ylim.1 ylim.2 num_points
  let X : ℕ → ℕ → ℝ := fun _i j => x j
  let Y : ℕ → ℕ → ℝ := fun i _j => y i
  let gp := global_position craft
  let distance_field : ℕ → ℕ → ℝ := fun i j =>
    Real.sqrt ((X i j - gp.1) ^ 2 + (Y i j - gp.2) ^ 2)
  match craft.comms with
  | none => .error (.attributeError "frequency_hz")
  | some p =>
    let path_loss_field : ℕ → ℕ → ℝ := fun i j =>
      20 * log10 (distance_field i j * 1000) +
        20 * log10 (p.frequency_hz / 1e6) + 32.44
    let power_received : ℕ → ℕ → ℝ := fun i j =>
      p.transmit_power_dBm - path_loss_field i j
    if antenna_correction then
      let corrected : ℕ → ℕ → ℝ := fun i j =>
        power_received i j +
          10 * log10 (gain_raw p (angle_off_boresight craft (X i j) (Y i j)) false)
      .ok (X, Y, corrected)
    else
      .ok (X, Y, power_received)

/-- The default minimum-power threshold of plot_min_satellite_acquisition
(src/dinosim/visualizations.py): min_power = -135 dBm. -/
def min_power_default : ℝ := -135

/-- np.max(np.array(power_maps), axis=0) over a stack of same-shaped grids
(plot_best_received_power_field, src/dinosim/visualizations.py): the
element-wise running maximum over the list.  numpy rejects an empty stack;
the embedding returns the junk value 0 there. -/
def best_power_map (power_maps : List (ℕ → ℕ → ℝ)) : ℕ → ℕ → ℝ :=
  fun i j =>
    match power_maps with
    | [] => 0
    | m :: rest => rest.foldl (fun acc mp => max acc (mp i j)) (m i j)

/-- np.sum(power_maps >= min_power, axis=0) over a stack of grids
(plot_min_satellite_acquisition, src/dinosim/visualizations.py): the
element-wise sum of the boolean comparison, i.e. of 1/0 indicators. -/
def num_satellites_map (power_maps : List (ℕ → ℕ → ℝ)) (min_power : ℝ) :
    ℕ → ℕ → ℕ :=
  fun i j =>
    (power_maps.map fun m => if min_power ≤ m i j then 1 else 0).sum

/-- Boolean success test on an embedded Python result: true when no
exception was raised. -/
def exceptIsOk {ε α : Type} : Except ε α → Bool
  | .ok _ => true
  | .error _ => false

/-- A concrete planet at the origin, used by the concrete test inputs. -/
def planet0 : Planet := ⟨0, 0, 10, "planet"⟩

/-- A concrete configured spacecraft: altitude 50, angle_global 0,
pointing_angle 0, transmit power 20 dBm, frequency 2.4 GHz, gain 3 dB. -/
def craftC1 : DINO := ⟨"dino1", planet0, 50, 0, 0, some ⟨20, 2.4e9, 3⟩⟩

/-- A concrete spacecraft on which set_comm_params was never called. -/
def craftBare : DINO := ⟨"bare", planet0, 50, 0, 0, none⟩

/-- Accessor for the theta array of a radiation-pattern result (0 when the
call raised). -/
def rp_theta (c : DINO) (degreesFlag : Bool) (i : ℕ) : ℝ :=
  match get_absolute_radiation_pattern c degreesFlag with
  | .ok tp => tp.1 i
  | .error _ => 0

/-- A concrete pair of power fields (constant grids at -100 and -140 dBm)
for exercising the aggregation reductions. -/
def dinoFields : List (ℕ → ℕ → ℝ) :=
  [fun _ _ => -100, fun _ _ => -140]

/-- Reduction of get_absolute_gain on a configured craft. -/
theorem get_absolute_gain_some (c : DINO) (p : CommParams) (hp : c.comms = some p)
    (theta : ℝ) (f : Bool) :
    get_absolute_gain c theta f = Except.ok (gain_raw p theta f) := by
  unfold get_absolute_gain
  rw [hp]

/-- Reduction of get_absolute_gain_dB on a configured craft. -/
theorem get_absolute_gain_dB_some (c : DINO) (p : CommParams) (hp : c.comms = some p)
    (theta : ℝ) (f : Bool) :
    get_absolute_gain_dB c theta f = Except.ok (10 * log10 (gain_raw p theta f)) := by
  unfold get_absolute_gain_dB
  rw [get_absolute_gain_some c p hp theta f]
  rfl

/-- linspace agrees everywhere with the uniform-spacing formula
a + i * ((b - a) / (n - 1)); for n = 1 both give a (real division by the
zero denominator is zero). -/
theorem linspace_eq (a b : ℝ) (n i : ℕ) :
    linspace a b n i = a + i * ((b - a) / ((n : ℝ) - 1)) := by
  unfold linspace
  split
  · rename_i h
    subst h
    norm_num
  · rfl

/-- C8: on every configured spacecraft, get_absolute_gain at theta = 0
returns exactly antenna_gain_dB, in the degrees mode and in the radians
mode alike (exp(0) = 1 at boresight). -/
theorem gain_at_zero_is_peak (craft : DINO) (p : CommParams)
    (hp : craft.comms = some p) :
    get_absolute_gain craft 0 true = Except.ok p.antenna_gain_dB ∧
    get_absolute_gain craft 0 false = Except.ok p.antenna_gain_dB := by
  rw [get_absolute_gain_some craft p hp, get_absolute_gain_some craft p hp]
  constructor
  · unfold gain_raw
    simp
  · unfold gain_raw degrees
    simp

/-- Witness for C8 at the concrete configured craft (gain 3 dB). -/
theorem gain_at_zero_is_peak_witness :
    get_absolute_gain craftC1 0 true = Except.ok 3 ∧
    get_absolute_gain craftC1 0 false = Except.ok 3 :=
  gain_at_zero_is_peak craftC1 ⟨20, 2.4e9, 3⟩ rfl

/-- Explicit form of the power field on a configured craft with
antenna_correction disabled. -/
theorem power_field_false_eq (xlim ylim : ℝ × ℝ) (craft : DINO) (p : CommParams)
    (hp : craft.comms = some p) (n : ℕ) :
    get_power_received_field_from_spacecraft xlim ylim craft n false =
      Except.ok (fun _i j => linspace xlim.1 xlim.2 n j,
        fun i _j => linspace ylim.1 ylim.2 n i,
        fun i j =>
          p.transmit_power_dBm -
            (20 * log10 (Real.sqrt
                ((linspace xlim.1 xlim.2 n j - (global_position craft).1) ^ 2 +
                 (linspace ylim.1 ylim.2 n i - (global_position craft).2) ^ 2) * 1000) +
              20 * log10 (p.frequency_hz / 1e6) + 32.44)) := by
  unfold get_power_received_field_from_spacecraft
  rw [hp]
  rfl

/-- Explicit form of the power field on a configured craft with
antenna_correction enabled. -/
theorem power_field_true_eq (xlim ylim : ℝ × ℝ) (craft : DINO) (p : CommParams)
    (hp : craft.comms = some p) (n : ℕ) :
    get_power_received_field_from_spacecraft xlim ylim craft n true =
      Except.ok (fun _i j => linspace xlim.1 xlim.2 n j,
        fun i _j => linspace ylim.1 ylim.2 n i,
        fun i j =>
          (p.transmit_power_dBm -
            (20 * log10 (Real.sqrt
                ((linspace xlim.1 xlim.2 n j - (global_position craft).1) ^ 2 +
                 (linspace ylim.1 ylim.2 n i - (global_position craft).2) ^ 2) * 1000) +
              20 * log10 (p.frequency_hz / 1e6) + 32.44)) +
            10 * log10 (gain_raw p
              (angle_off_boresight craft (linspace xlim.1 xlim.2 n j)
                (linspace ylim.1 ylim.2 n i)) false)) := by
  unfold get_power_received_field_from_spacecraft
  rw [hp]
  rfl

/-- The power field on an unconfigured craft raises the AttributeError for
frequency_hz, in either antenna_correction mode. -/
theorem power_field_none (xlim ylim : ℝ × ℝ) (craft : DINO)
    (hp : craft.comms = none) (n : ℕ) (corr : Bool) :
    get_power_received_field_from_spacecraft xlim ylim craft n corr =
      Except.error (.attributeError "frequency_hz") := by
  unfold get_power_received_field_from_spacecraft
  rw [hp]

/-- C7: with antenna_correction disabled, the received-power field of two
spacecraft that are identical except for their pointing_angle is identical
(X, Y and the power grid): the field depends only on distance, transmit
power and frequency. -/
theorem power_field_ignores_pointing_angle (nm : String) (body : Planet)
    (altitude angle_global pa1 pa2 : ℝ) (p : CommParams) (xlim ylim : ℝ × ℝ)
    (num_points : ℕ) :
    get_power_received_field_from_spacecraft xlim ylim
        ⟨nm, body, altitude, angle_global, pa1, some p⟩ num_points false =
      get_power_received_field_from_spacecraft xlim ylim
        ⟨nm, body, altitude, angle_global, pa2, some p⟩ num_points false := by
  rw [power_field_false_eq xlim ylim _ p rfl num_points,
    power_field_false_eq xlim ylim _ p rfl num_points]
  rfl

/-- C2: on a configured spacecraft, get_power_received_field_from_spacecraft
with antenna_correction disabled returns num_points-by-num_points grids of
uniformly spaced X and Y coordinates over the bounds, and at every grid
point the power equals transmit_power_dBm minus the free-space path loss
20*log10(d*1000) + 20*log10(frequency_hz/1e6) + 32.44 at the Euclidean
distance d from the point to the spacecraft global position. -/
theorem power_field_no_correction_formula (xlim ylim : ℝ × ℝ) (craft : DINO)
    (p : CommParams) (num_points : ℕ) (hp : craft.comms = some p)
    (hn : 1 ≤ num_points) :
    ∃ X Y P : ℕ → ℕ → ℝ,
      get_power_received_field_from_spacecraft xlim ylim craft num_points false =
        Except.ok (X, Y, P) ∧
      ∀ i j : ℕ,
        X i j = xlim.1 + j * ((xlim.2 - xlim.1) / ((num_points : ℝ) - 1)) ∧
        Y i j = ylim.1 + i * ((ylim.2 - ylim.1) / ((num_points : ℝ) - 1)) ∧
        P i j = p.transmit_power_dBm -
          (20 * log10 (Real.sqrt
              ((X i j - (craft.orbiting_body.x +
                  (craft.altitude + craft.orbiting_body.radius) *
                    Real.cos (radians craft.angle_global))) ^ 2 +
               (Y i j - (craft.orbiting_body.y +
                  (craft.altitude + craft.orbiting_body.radius) *
                    Real.sin (radians craft.angle_global))) ^ 2) * 1000) +
            20 * log10 (p.frequency_hz / 1e6) + 32.44) := by
  refine ⟨_, _, _, power_field_false_eq xlim ylim craft p hp num_points,
    fun i j => ⟨linspace_eq _ _ _ _, linspace_eq _ _ _ _, ?_⟩⟩
  simp only [global_position]

/-- Witness for C2: the default viewport, the concrete configured craft and
a 100-point grid. -/
theorem power_field_no_correction_formula_witness :
    ∃ X Y P : ℕ → ℕ → ℝ,
      get_power_received_field_from_spacecraft (-100, 500) (-300, 300) craftC1
        100 false = Except.ok (X, Y, P) := by
  obtain ⟨X, Y, P, hok, -⟩ :=
    power_field_no_correction_formula (-100, 500) (-300, 300) craftC1
      ⟨20, 2.4e9, 3⟩ 100 rfl (by norm_num)
  exact ⟨X, Y, P, hok⟩

/-- C3: on a configured spacecraft, get_power_received_field_from_spacecraft
with antenna_correction enabled returns, at every grid point, the base
received power (transmit power minus the distance-and-frequency path loss)
plus the dB gain returned by get_absolute_gain_dB in radian mode at the
angle off boresight obtained by rotating the spacecraft-to-point vector by
the negative of the absolute pointing angle in radians and taking arctan2
of the rotated vector. -/
theorem power_field_with_correction_formula (xlim ylim : ℝ × ℝ) (craft : DINO)
    (p : CommParams) (num_points : ℕ) (hp : craft.comms = some p) :
    ∃ X Y P : ℕ → ℕ → ℝ,
      get_power_received_field_from_spacecraft xlim ylim craft num_points true =
        Except.ok (X, Y, P) ∧
      ∀ i j : ℕ,
        P i j =
          (p.transmit_power_dBm -
            (20 * log10 (Real.sqrt
                ((X i j - (global_position craft).1) ^ 2 +
                 (Y i j - (global_position craft).2) ^ 2) * 1000) +
              20 * log10 (p.frequency_hz / 1e6) + 32.44)) +
            10 * log10 (gain_raw p (angle_off_boresight craft (X i j) (Y i j)) false) ∧
        get_absolute_gain_dB craft (angle_off_boresight craft (X i j) (Y i j)) false =
          Except.ok
            (10 * log10 (gain_raw p (angle_off_boresight craft (X i j) (Y i j)) false)) := by
  refine ⟨_, _, _, power_field_true_eq xlim ylim craft p hp num_points,
    fun i j => ⟨rfl, get_absolute_gain_dB_some craft p hp _ _⟩⟩

/-- Witness for C3: the default viewport, the concrete configured craft and
a 100-point grid. -/
theorem power_field_with_correction_formula_witness :
    ∃ X Y P : ℕ → ℕ → ℝ,
      get_power_received_field_from_spacecraft (-100, 500) (-300, 300) craftC1
        100 true = Except.ok (X, Y, P) := by
  obtain ⟨X, Y, P, hok, -⟩ :=
    power_field_with_correction_formula (-100, 500) (-300, 300) craftC1
      ⟨20, 2.4e9, 3⟩ 100 rfl
  exact ⟨X, Y, P, hok⟩

/-- A left fold of max is at least its initial accumulator. -/
theorem foldl_max_init_le (l : List ℝ) (a : ℝ) : a ≤ l.foldl max a := by
  induction l generalizing a with
  | nil => exact le_refl a
  | cons x xs ih => exact le_trans (le_max_left a x) (ih (max a x))

/-- A left fold of max is at least every list element. -/
theorem foldl_max_mem_le (l : List ℝ) (a x : ℝ) (hx : x ∈ l) :
    x ≤ l.foldl max a := by
  induction l generalizing a with
  | nil => cases hx
  | cons y ys ih =>
    rcases List.mem_cons.mp hx with h | h
    · subst h
      exact le_trans (le_max_right a x) (foldl_max_init_le ys (max a x))
    · exact ih (max a y) h

/-- A left fold of max is attained: it is the accumulator or an element. -/
theorem foldl_max_attained (l : List ℝ) (a : ℝ) :
    l.foldl max a = a ∨ ∃ x ∈ l, l.foldl max a = x := by
  induction l generalizing a with
  | nil => exact Or.inl rfl
  | cons y ys ih =>
    rcases ih (max a y) with h | ⟨x, hx, hval⟩
    · rcases le_total y a with hya | hay
      · exact Or.inl (by rw [List.foldl_cons, h, max_eq_left hya])
      · exact Or.inr ⟨y, List.mem_cons_self y ys,
          by rw [List.foldl_cons, h, max_eq_right hay]⟩
    · exact Or.inr ⟨x, List.mem_cons_of_mem y hx, by rw [List.foldl_cons]; exact hval⟩

/-- The element-wise sum of 1/0 comparison indicators equals the count of
list entries satisfying the comparison. -/
theorem sum_indicator_eq_countP (maps : List (ℕ → ℕ → ℝ)) (mp : ℝ) (i j : ℕ) :
    (maps.map fun m => if mp ≤ m i j then 1 else 0).sum =
      maps.countP fun m => decide (mp ≤ m i j) := by
  induction maps with
  | nil => rfl
  | cons m rest ih =>
    by_cases h : mp ≤ m i j <;>
      simp [List.countP_cons, h, ih, Nat.add_comm]

/-- C4: over any nonempty stack of per-spacecraft power fields, the
best-power field at every grid point is the element-wise maximum (an upper
bound on every field and attained by one of them), and the
acquisition-count field at every grid point is the number of fields whose
power there meets or exceeds the minimum-power threshold. -/
theorem aggregation_max_count_spec (power_maps : List (ℕ → ℕ → ℝ))
    (min_power : ℝ) (i j : ℕ) (hne : power_maps ≠ []) :
    (∀ m ∈ power_maps, m i j ≤ best_power_map power_maps i j) ∧
    (∃ m ∈ power_maps, best_power_map power_maps i j = m i j) ∧
    num_satellites_map power_maps min_power i j =
      power_maps.countP fun m => decide (min_power ≤ m i j) := by
  match power_maps, hne with
  | m :: rest, _ =>
    refine ⟨?_, ?_, sum_indicator_eq_countP (m :: rest) min_power i j⟩
    · intro mp hmp
      rcases List.mem_cons.mp hmp with h | h
      · subst h
        have := foldl_max_init_le (rest.map fun f => f i j) (mp i j)
        rw [List.foldl_map] at this
        exact this
      · have := foldl_max_mem_le (rest.map fun f => f i j) (m i j) (mp i j)
          (List.mem_map_of_mem (fun f => f i j) h)
        rw [List.foldl_map] at this
        exact this
    · have := foldl_max_attained (rest.map fun f => f i j) (m i j)
      rw [List.foldl_map] at this
      rcases this with h | ⟨x, hx, hval⟩
      · exact ⟨m, List.mem_cons_self m rest, h⟩
      · rcases List.mem_map.mp hx with ⟨f, hf, rfl⟩
        exact ⟨f, List.mem_cons_of_mem m hf, hval⟩

/-- Witness for C4 at the concrete pair of constant power fields and the
default -135 dBm threshold. -/
theorem aggregation_max_count_spec_witness :
    (∀ m ∈ dinoFields, m 0 0 ≤ best_power_map dinoFields 0 0) ∧
    (∃ m ∈ dinoFields, best_power_map dinoFields 0 0 = m 0 0) ∧
    num_satellites_map dinoFields min_power_default 0 0 =
      dinoFields.countP fun m => decide (min_power_default ≤ m 0 0) :=
  aggregation_max_count_spec dinoFields min_power_default 0 0 (by simp [dinoFields])

/-- C5 counterexample: on a spacecraft whose comm parameters were never set,
the received-power field computation does not fail with the
"parameters not configured" ValueError (it fails reading the frequency_hz
attribute instead, which was never assigned). -/
theorem power_field_unset_error_cex :
    get_power_received_field_from_spacecraft (-100, 500) (-300, 300) craftBare
        100 true ≠
      Except.error (PyError.valueError commsNotSetMsg) := by
  rw [power_field_none (-100, 500) (-300, 300) craftBare rfl 100 true]
  intro h
  exact PyError.noConfusion (Except.error.inj h)

/-- C5 amended: on an unconfigured spacecraft every gain and pattern
operation fails immediately with the "parameters not configured" ValueError
and no result, while the received-power field computation (in either
antenna_correction mode) also fails immediately with no partial result, but
with an AttributeError for the unset frequency_hz attribute rather than the
configuration error. -/
theorem unset_params_error_behaviour (craft : DINO) (hnone : craft.comms = none)
    (theta : ℝ) (degreesFlag : Bool) (xlim ylim : ℝ × ℝ) (num_points : ℕ)
    (corr : Bool) :
    get_absolute_gain craft theta degreesFlag =
      Except.error (.valueError commsNotSetMsg) ∧
    get_absolute_gain_dB craft theta degreesFlag =
      Except.error (.valueError commsNotSetMsg) ∧
    get_absolute_radiation_pattern craft degreesFlag =
      Except.error (.valueError commsNotSetMsg) ∧
    get_absolute_radiation_pattern_dB craft degreesFlag =
      Except.error (.valueError commsNotSetMsg) ∧
    get_normalized_radiation_pattern craft degreesFlag =
      Except.error (.valueError commsNotSetMsg) ∧
    get_normalized_radiation_pattern_dB craft degreesFlag =
      Except.error (.valueError commsNotSetMsg) ∧
    get_power_received_field_from_spacecraft xlim ylim craft num_points corr =
      Except.error (.attributeError "frequency_hz") := by
  have hg : get_absolute_gain craft theta degreesFlag =
      Except.error (.valueError commsNotSetMsg) := by
    unfold get_absolute_gain
    rw [hnone]
  have hr : get_absolute_radiation_pattern craft degreesFlag =
      Except.error (.valueError commsNotSetMsg) := by
    unfold get_absolute_radiation_pattern
    rw [hnone]
  refine ⟨hg, ?_, hr, ?_, ?_, ?_,
    power_field_none xlim ylim craft hnone num_points corr⟩
  · unfold get_absolute_gain_dB
    rw [hg]
    rfl
  · unfold get_absolute_radiation_pattern_dB
    rw [hr]
    rfl
  · unfold get_normalized_radiation_pattern
    rw [hr]
    rfl
  · unfold get_normalized_radiation_pattern_dB get_absolute_radiation_pattern_dB
    rw [hr]
    rfl

/-- Witness for C5 amended at the concrete unconfigured craft. -/
theorem unset_params_error_behaviour_witness :
    get_absolute_gain craftBare 0 true =
      Except.error (.valueError commsNotSetMsg) ∧
    get_power_received_field_from_spacecraft (-100, 500) (-300, 300) craftBare
        100 false =
      Except.error (.attributeError "frequency_hz") := by
  obtain ⟨h1, -, -, -, -, -, h7⟩ :=
    unset_params_error_behaviour craftBare rfl 0 true (-100, 500) (-300, 300)
      100 false
  exact ⟨h1, h7⟩

/-- C6 counterexample: on the concrete configured craft, in the default
degrees mode, the first returned angle sample is not -180 degrees (it is
-π: the samples are generated over [-π, π] and returned unconverted). -/
theorem radiation_pattern_theta_range_cex : rp_theta craftC1 true 0 ≠ -180 := by
  have h : rp_theta craftC1 true 0 = -Real.pi := by
    unfold rp_theta get_absolute_radiation_pattern craftC1
    norm_num [pattern_theta, linspace]
  rw [h]
  intro heq
  have hpi : Real.pi = 180 := neg_inj.mp heq
  have := Real.pi_le_four
  rw [hpi] at this
  norm_num at this

/-- C6 amended: on a configured spacecraft get_absolute_radiation_pattern
returns 360 uniformly spaced angle samples t i = -π + i * (2π / 359)
spanning [-π, π] when the degrees flag is selected, and those same samples
additionally scaled by π/180 (np.radians applied a second time) in radian
mode; the gain array equals absolute_gain evaluated in degrees mode at the
unscaled sample values. -/
theorem radiation_pattern_samples_spec (craft : DINO) (p : CommParams)
    (hp : craft.comms = some p) :
    ∃ t g : ℕ → ℝ,
      get_absolute_radiation_pattern craft true = Except.ok (t, g) ∧
      get_absolute_radiation_pattern craft false =
        Except.ok (fun i => radians (t i), g) ∧
      t 0 = -Real.pi ∧ t 359 = Real.pi ∧
      (∀ i : ℕ, t i = -Real.pi + i * (2 * Real.pi / 359)) ∧
      (∀ i : ℕ, get_absolute_gain craft (t i) true = Except.ok (g i)) := by
  refine ⟨pattern_theta, pattern_raw p, ?_, ?_, ?_, ?_, ?_, ?_⟩
  · unfold get_absolute_radiation_pattern
    rw [hp]
    rfl
  · unfold get_absolute_radiation_pattern
    rw [hp]
    rfl
  · unfold pattern_theta linspace
    norm_num
  · unfold pattern_theta linspace
    norm_num
    ring
  · intro i
    unfold pattern_theta linspace
    have h359 : ((360 : ℕ) : ℝ) - 1 = 359 := by norm_num
    rw [if_neg (by norm_num : (360 : ℕ) ≠ 1), h359]
    ring
  · intro i
    rw [get_absolute_gain_some craft p hp]
    rfl

/-- Witness for C6 amended at the concrete configured craft. -/
theorem radiation_pattern_samples_spec_witness :
    ∃ t g : ℕ → ℝ,
      get_absolute_radiation_pattern craftC1 true = Except.ok (t, g) ∧
      t 0 = -Real.pi := by
  obtain ⟨t, g, h1, -, h3, -, -, -⟩ :=
    radiation_pattern_samples_spec craftC1 ⟨20, 2.4e9, 3⟩ rfl
  exact ⟨t, g, h1, h3⟩

/-- C1 counterexample: on the concrete configured craft (gain 3 dB), the
gain at theta = π supplied in radian mode is not
G_dB * exp(-0.5 * (theta_rad / sigma)^2): the implementation first converts
theta to degrees and divides the degree value by sigma. -/
theorem gain_radian_mode_not_radians_cex :
    get_absolute_gain craftC1 Real.pi false ≠
      Except.ok ((3 : ℝ) * Real.exp (-0.5 *
        (Real.pi / (radians (65 * Real.sqrt 3 / Real.sqrt 3) / 2)) ^ 2)) := by
  intro h
  rw [get_absolute_gain_some craftC1 ⟨20, 2.4e9, 3⟩ rfl] at h
  have h' : (3 : ℝ) * Real.exp (-0.5 * (degrees Real.pi / antenna_sigma 3) ^ 2) =
      3 * Real.exp (-0.5 * (Real.pi / antenna_sigma 3) ^ 2) := Except.ok.inj h
  have h3 : (3 : ℝ) ≠ 0 := by norm_num
  have hexp := mul_left_cancel₀ h3 h'
  have harg := Real.exp_eq_exp.mp hexp
  have hhalf : (-0.5 : ℝ) ≠ 0 := by norm_num
  have hsq := mul_left_cancel₀ hhalf harg
  have hdeg : degrees Real.pi = 180 := by
    unfold degrees
    field_simp [Real.pi_ne_zero]
  rw [hdeg] at hsq
  have hσ : 0 < antenna_sigma 3 := by
    unfold antenna_sigma radians beamwidth_K
    have h3s : (0 : ℝ) < 3 := by norm_num
    positivity
  have hσne : antenna_sigma 3 ≠ 0 := ne_of_gt hσ
  rw [div_pow, div_pow,
    div_eq_div_iff (pow_ne_zero 2 hσne) (pow_ne_zero 2 hσne)] at hsq
  have h2 : (180 : ℝ) ^ 2 = Real.pi ^ 2 := mul_right_cancel₀ (pow_ne_zero 2 hσne) hsq
  nlinarith [Real.pi_le_four, Real.pi_pos, h2]

/-- C1 amended: on a configured spacecraft with peak gain G_dB > 0,
get_absolute_gain returns G_dB * exp(-0.5 * (theta_deg / sigma)^2) where
theta_deg is theta expressed in degrees (the input is used as-is under the
degrees flag and converted with np.degrees in radian mode) and
sigma = radians((65 * sqrt 3) / sqrt G_dB) / 2: the internal computation
operates on theta in degrees, while sigma is in radians. -/
theorem gain_formula_degrees_internal (craft : DINO) (p : CommParams)
    (hp : craft.comms = some p) (hg : 0 < p.antenna_gain_dB) (theta : ℝ)
    (degreesFlag : Bool) :
    get_absolute_gain craft theta degreesFlag =
      Except.ok (p.antenna_gain_dB * Real.exp (-0.5 *
        ((if degreesFlag then theta else degrees theta) /
          (radians (65 * Real.sqrt 3 / Real.sqrt p.antenna_gain_dB) / 2)) ^ 2)) := by
  rw [get_absolute_gain_some craft p hp]
  rfl

/-- Witness for C1 amended at the concrete configured craft, theta = 1 in
radian mode. -/
theorem gain_formula_degrees_internal_witness :
    get_absolute_gain craftC1 1 false =
      Except.ok ((3 : ℝ) * Real.exp (-0.5 *
        ((if false then (1 : ℝ) else degrees 1) /
          (radians (65 * Real.sqrt 3 / Real.sqrt 3) / 2)) ^ 2)) :=
  gain_formula_degrees_internal craftC1 ⟨20, 2.4e9, 3⟩ rfl (by norm_num) 1 false

/-- C9 counterexample: set_comm_params called with the non-positive
frequency 0 succeeds and stores it (no ValidationError), and the field
computation called with the non-positive grid resolution num_points = 0 on
a configured craft returns successfully instead of being rejected. -/
theorem no_validation_error_cex :
    (set_comm_params craftBare 20 0 3).comms = some ⟨20, 0, 3⟩ ∧
    exceptIsOk (get_power_received_field_from_spacecraft (-100, 500)
      (-300, 300) craftC1 0 false) = true := by
  refine ⟨rfl, ?_⟩
  rw [power_field_false_eq (-100, 500) (-300, 300) craftC1 ⟨20, 2.4e9, 3⟩ rfl 0]
  rfl

/-- C9 amended: neither input is validated: set_comm_params accepts and
stores any frequency, non-positive included, and the field computation
accepts the grid resolution 0 and completes in either antenna_correction
mode; no validation error is raised at construction or call time. -/
theorem no_input_validation (craft : DINO) (tp f g : ℝ) (hf : f ≤ 0)
    (craft2 : DINO) (p : CommParams) (hp : craft2.comms = some p)
    (xlim ylim : ℝ × ℝ) (corr : Bool) :
    (set_comm_params craft tp f g).comms = some ⟨tp, f, g⟩ ∧
    exceptIsOk (get_power_received_field_from_spacecraft xlim ylim craft2
      0 corr) = true := by
  refine ⟨rfl, ?_⟩
  cases corr
  · rw [power_field_false_eq xlim ylim craft2 p hp 0]
    rfl
  · rw [power_field_true_eq xlim ylim craft2 p hp 0]
    rfl

/-- Witness for C9 amended: frequency 0 and a 0-point grid on the concrete
crafts. -/
theorem no_input_validation_witness :
    (set_comm_params craftBare 20 0 3).comms = some ⟨20, 0, 3⟩ ∧
    exceptIsOk (get_power_received_field_from_spacecraft (-100, 500)
      (-300, 300) craftC1 0 true) = true :=
  no_input_validation craftBare 20 0 3 le_rfl craftC1 ⟨20, 2.4e9, 3⟩ rfl
    (-100, 500) (-300, 300) true

/-- C10: on a configured spacecraft with antenna_gain_dB > 0, the gain
returned by get_absolute_gain is strictly positive and at most
antenna_gain_dB at every angle in either unit mode, so the log10 inside
get_absolute_gain_dB is always applied to a positive argument and
get_absolute_gain_dB returns a value for every input. -/
theorem gain_positive_and_bounded (craft : DINO) (p : CommParams)
    (hp : craft.comms = some p) (hg : 0 < p.antenna_gain_dB) (theta : ℝ)
    (degreesFlag : Bool) :
    get_absolute_gain craft theta degreesFlag =
      Except.ok (gain_raw p theta degreesFlag) ∧
    0 < gain_raw p theta degreesFlag ∧
    gain_raw p theta degreesFlag ≤ p.antenna_gain_dB ∧
    get_absolute_gain_dB craft theta degreesFlag =
      Except.ok (10 * log10 (gain_raw p theta degreesFlag)) := by
  have hraw : gain_raw p theta degreesFlag =
      p.antenna_gain_dB * Real.exp (-0.5 *
        ((if degreesFlag then theta else degrees theta) /
          antenna_sigma p.antenna_gain_dB) ^ 2) := rfl
  have hpos : 0 < gain_raw p theta degreesFlag := by
    rw [hraw]
    exact mul_pos hg (Real.exp_pos _)
  have hle : gain_raw p theta degreesFlag ≤ p.antenna_gain_dB := by
    rw [hraw]
    have harg : -0.5 * ((if degreesFlag then theta else degrees theta) /
        antenna_sigma p.antenna_gain_dB) ^ 2 ≤ 0 := by
      have hs := sq_nonneg ((if degreesFlag then theta else degrees theta) /
        antenna_sigma p.antenna_gain_dB)
      nlinarith
    have hexp1 : Real.exp (-0.5 * ((if degreesFlag then theta else degrees theta) /
        antenna_sigma p.antenna_gain_dB) ^ 2) ≤ 1 := by
      have := Real.exp_le_exp.mpr harg
      rwa [Real.exp_zero] at this
    calc p.antenna_gain_dB * Real.exp (-0.5 *
          ((if degreesFlag then theta else degrees theta) /
            antenna_sigma p.antenna_gain_dB) ^ 2) ≤
        p.antenna_gain_dB * 1 := mul_le_mul_of_nonneg_left hexp1 hg.le
      _ = p.antenna_gain_dB := mul_one _
  exact ⟨get_absolute_gain_some craft p hp theta degreesFlag, hpos, hle,
    get_absolute_gain_dB_some craft p hp theta degreesFlag⟩

/-- Witness for C10 at the concrete configured craft, theta = 1 in degrees
mode. -/
theorem gain_positive_and_bounded_witness :
    get_absolute_gain craftC1 1 true =
      Except.ok (gain_raw ⟨20, 2.4e9, 3⟩ 1 true) ∧
    0 < gain_raw ⟨20, 2.4e9, 3⟩ 1 true ∧
    gain_raw ⟨20, 2.4e9, 3⟩ 1 true ≤ (3 : ℝ) ∧
    get_absolute_gain_dB craftC1 1 true =
      Except.ok (10 * log10 (gain_raw ⟨20, 2.4e9, 3⟩ 1 true)) :=
  gain_positive_and_bounded craftC1 ⟨20, 2.4e9, 3⟩ rfl (by norm_num) 1 true

end

end DinoSim
